import Mathlib

/-
Verification of the Trend Scoring & Feedback Adaptation Engine of gem.ny.

The definitions below are a shallow embedding of the TypeScript sources:
  data/sources/config.ts        (Source Registry)
  services/ScoringAlgorithm.ts  (Scoring Engine)
  services/NetworkExpansionService.ts (Source Graph data)
  services/SourceDataService.ts (Mention Store)
  services/FeedbackLoopService.ts (Feedback Controller)
JavaScript numbers are modelled as rationals; the one transcendental
operation, Math.pow(0.5, x) in the recency decay, is modelled with the real
power function, so the scoring pipeline from that point on lives in ℝ.
Dates are modelled as rational milliseconds since the epoch, and every
occurrence of `new Date()` in the sources becomes an explicit `now`
parameter.
-/

namespace GemNY

/-! ## Source Registry (data/sources/config.ts) -/

inductive SourceCategory where
  | editorial
  | social
  | ecommerce
  | magazine
  | blog
deriving DecidableEq

structure SeedSource where
  id : String
  name : String
  url : String
  category : SourceCategory
  weight : ℚ
deriving DecidableEq

/-- The fixed seed-source catalog of data/sources/config.ts (identity,
category and authority weight; scraping selectors and feed URLs carry no
algorithmic content and are omitted). -/
def SEED_SOURCES : List SeedSource :=
  [⟨"highsnobiety", "Highsnobiety", "https://www.highsnobiety.com",
      SourceCategory.editorial, 30⟩,
   ⟨"ssense", "SSENSE Editorial", "https://www.ssense.com/en-us/editorial",
      SourceCategory.editorial, 30⟩,
   ⟨"hypebeast", "Hypebeast Fashion", "https://hypebeast.com/fashion",
      SourceCategory.editorial, 15⟩,
   ⟨"dazed", "Dazed & Confused", "https://www.dazeddigital.com/fashion",
      SourceCategory.magazine, 10⟩,
   ⟨"i-d", "i-D", "https://i-d.vice.com/en_uk/topic/fashion",
      SourceCategory.magazine, 5⟩,
   ⟨"10magazine", "10 Magazine", "https://www.10magazine.com",
      SourceCategory.magazine, 10⟩]

/-! ## Mention Store data (services/SourceDataService.ts) -/

structure BrandMention where
  brandName : String
  sourceId : String
  url : String
  context : String
  timestamp : ℚ
  sentiment : Option ℚ
  productName : Option String
  productCategory : Option String
deriving DecidableEq

/-- getBrandMentionsByBrand of SourceDataService.ts: case-insensitive exact
match on the brand name. -/
def getBrandMentionsByBrand (mentions : List BrandMention) (brandName : String) :
    List BrandMention :=
  mentions.filter (fun m => m.brandName.toLower == brandName.toLower)

/-! ## Source Graph data (services/NetworkExpansionService.ts) -/

inductive ConnectionType where
  | backlink
  | mention
  | social
  | related
deriving DecidableEq

structure SourceConnection where
  sourceId : String
  targetId : String
  connectionType : ConnectionType
  strength : ℚ
  discoveredAt : ℚ
deriving DecidableEq

/-! ## Scoring Engine (services/ScoringAlgorithm.ts) -/

structure ScoringParameters where
  sourceWeightFactor : ℚ
  centralityFactor : ℚ
  sentimentFactor : ℚ
  recencyDecayDays : ℚ
  recencyFactor : ℚ
  frequencyFactor : ℚ
  productMentionBoost : ℚ
  contextDetailBoost : ℚ
deriving DecidableEq

/-- The default parameter block of ScoringAlgorithm.ts. -/
def defaultParameters : ScoringParameters :=
  { sourceWeightFactor := 0.5
    centralityFactor := 0.3
    sentimentFactor := 0.4
    recencyDecayDays := 14
    recencyFactor := 0.6
    frequencyFactor := 0.5
    productMentionBoost := 1.3
    contextDetailBoost := 1.2 }

/-- The mutable state of the ScoringAlgorithm class: its parameters and the
cached source-centrality map (a total function defaulting to 0, mirroring
`this.sourceCentrality.get(id) || 0`). -/
structure ScoringState where
  parameters : ScoringParameters
  sourceCentrality : String → ℚ

/-- The incoming-connection count of calculateSourceCentrality: how many
connections target the given source. -/
def incomingConnectionCount (connections : List SourceConnection) (sourceId : String) : ℕ :=
  connections.countP (fun c => c.targetId == sourceId)

/-- The strengths of the connections targeting the given source
(the connectionStrengths map of calculateSourceCentrality). -/
def incomingStrengths (connections : List SourceConnection) (sourceId : String) : List ℚ :=
  (connections.filter (fun c => c.targetId == sourceId)).map (fun c => c.strength)

/-- calculateSourceCentrality of ScoringAlgorithm.ts, as the value the
centrality map receives for one source id: incoming connection count over
`SEED_SOURCES.length - 1`, times 50, plus half the average incoming
strength (0 when there are no incoming connections). -/
def centralityScore (connections : List SourceConnection) (sourceId : String) : ℚ :=
  let maxPossibleConnections : ℚ := (SEED_SOURCES.length : ℚ) - 1
  let incomingCount : ℚ := (incomingConnectionCount connections sourceId : ℚ)
  let strengths : List ℚ := incomingStrengths connections sourceId
  let connectionRatio : ℚ := incomingCount / maxPossibleConnections
  let avgStrength : ℚ :=
    if strengths.length > 0 then strengths.sum / (strengths.length : ℚ) else 0
  connectionRatio * 50 + avgStrength * 0.5

/-- getEffectiveSourceWeight of ScoringAlgorithm.ts: 0 for an unknown
source id, otherwise base weight times sourceWeightFactor plus centrality
times centralityFactor. -/
def getEffectiveSourceWeight (st : ScoringState) (sourceId : String) : ℚ :=
  match SEED_SOURCES.find? (fun s => s.id == sourceId) with
  | none => 0
  | some source =>
      source.weight * st.parameters.sourceWeightFactor +
        st.sourceCentrality sourceId * st.parameters.centralityFactor

def msPerDay : ℚ := 1000 * 60 * 60 * 24

/-- calculateRecencyScore of ScoringAlgorithm.ts: exponential half-life
decay of the mention age (in days) with half-life recencyDecayDays, scaled
to 0-100. `new Date()` is the explicit `now`. -/
noncomputable def calculateRecencyScore (st : ScoringState) (now mentionDate : ℚ) : ℝ :=
  let daysSinceMention : ℚ := (now - mentionDate) / msPerDay
  let decay : ℝ := (0.5 : ℝ) ^ ((daysSinceMention / st.parameters.recencyDecayDays : ℚ) : ℝ)
  decay * 100

/-- The sort `(a, b) => b.timestamp.getTime() - a.timestamp.getTime()` used
by calculateFrequencyScore and calculateBrandTrendScore: newest first. -/
def sortByTimestampDesc (mentions : List BrandMention) : List BrandMention :=
  mentions.mergeSort (fun a b => decide (b.timestamp ≤ a.timestamp))

/-- calculateFrequencyScore of ScoringAlgorithm.ts. -/
def calculateFrequencyScore (mentions : List BrandMention) : ℚ :=
  match sortByTimestampDesc mentions with
  | [] => 0
  | newest :: rest =>
    let oldest := rest.getLastD newest
    let daysInRange : ℚ := (newest.timestamp - oldest.timestamp) / msPerDay
    if daysInRange < 1 then
      min ((mentions.length : ℚ) * 20) 100
    else
      let mentionsPerDay : ℚ := (mentions.length : ℚ) / max daysInRange 1
      min (mentionsPerDay * 50) 100

/-- The combined weight a mention carries in calculateSentimentScore:
effective source weight times recency score over 100. -/
noncomputable def mentionSentimentWeight (st : ScoringState) (now : ℚ) (m : BrandMention) : ℝ :=
  (getEffectiveSourceWeight st m.sourceId : ℝ) * (calculateRecencyScore st now m.timestamp / 100)

/-- One iteration of the forEach in calculateSentimentScore: accumulates
(weightedSentiment, totalWeight), skipping mentions without a sentiment. -/
noncomputable def sentimentStep (st : ScoringState) (now : ℚ) (acc : ℝ × ℝ)
    (m : BrandMention) : ℝ × ℝ :=
  match m.sentiment with
  | none => acc
  | some s => (acc.1 + (s : ℝ) * mentionSentimentWeight st now m,
               acc.2 + mentionSentimentWeight st now m)

/-- The foldl computing (weightedSentiment, totalWeight) over the mentions;
mentions without a sentiment are skipped. -/
noncomputable def sentimentSums (st : ScoringState) (now : ℚ) (mentions : List BrandMention) :
    ℝ × ℝ :=
  mentions.foldl (sentimentStep st now) (0, 0)

/-- calculateSentimentScore of ScoringAlgorithm.ts: recency- and
authority-weighted mean sentiment mapped from [-1,1] to [0,100]; neutral 50
for an empty mention list or a zero total weight. -/
noncomputable def calculateSentimentScore (st : ScoringState) (now : ℚ)
    (mentions : List BrandMention) : ℝ :=
  if mentions.length = 0 then 50
  else
    let sums := sentimentSums st now mentions
    if sums.2 = 0 then 50
    else (sums.1 / sums.2 + 1) * 50

/-- JavaScript truthiness of an optional string: undefined and the empty
string are falsy. -/
def jsTruthy : Option String → Bool
  | none => false
  | some s => !s.isEmpty

/-- The per-mention score inside calculateContextScore: base 50, multiplied
by productMentionBoost when a product is named and by contextDetailBoost
when the context text is longer than 50 characters. -/
def mentionContextScore (p : ScoringParameters) (m : BrandMention) : ℚ :=
  let base : ℚ := 50
  let s1 : ℚ := if jsTruthy m.productName then base * p.productMentionBoost else base
  if m.context.length > 50 then s1 * p.contextDetailBoost else s1

/-- calculateContextScore of ScoringAlgorithm.ts: mean per-mention context
score, capped at 100. -/
def calculateContextScore (st : ScoringState) (mentions : List BrandMention) : ℚ :=
  if mentions.length = 0 then 0
  else min ((mentions.map (mentionContextScore st.parameters)).sum / (mentions.length : ℚ)) 100

/-- calculateConfidenceScore of ScoringAlgorithm.ts: volume (capped at 10
mentions) and source diversity (capped at 3 unique sources), 50 points
each. -/
def calculateConfidenceScore (mentions : List BrandMention) : ℚ :=
  if mentions.length = 0 then 0
  else
    let uniqueSources : ℕ := (mentions.map (fun m => m.sourceId)).dedup.length
    let mentionConfidence : ℚ := min ((mentions.length : ℚ) / 10) 1 * 50
    let diversityConfidence : ℚ := min ((uniqueSources : ℚ) / 3) 1 * 50
    mentionConfidence + diversityConfidence

/-- The sum of effective source weights over a mention list (the
accumulation loop of the source-authority component). -/
def authoritySum (st : ScoringState) (mentions : List BrandMention) : ℚ :=
  (mentions.map (fun m => getEffectiveSourceWeight st m.sourceId)).sum

structure BrandTrendScore where
  brandName : String
  totalScore : ℝ
  sourceAuthority : ℚ
  recency : ℝ
  frequency : ℚ
  sentiment : ℝ
  context : ℚ
  confidence : ℚ
  mentions : ℕ
  lastMentionDate : ℚ

/-- calculateBrandTrendScore of ScoringAlgorithm.ts. The empty mention list
short-circuits to the all-zero / neutral-sentiment record (its
lastMentionDate is `new Date()`, i.e. `now`); otherwise the five components
are combined as a weighted mean with weights {sourceWeightFactor,
recencyFactor, frequencyFactor, sentimentFactor, 1 - sentimentFactor},
divided by the sum of those same weights. -/
noncomputable def calculateBrandTrendScore (st : ScoringState) (now : ℚ)
    (brandName : String) (mentions : List BrandMention) : BrandTrendScore :=
  match mentions with
  | [] =>
    { brandName := brandName, totalScore := 0, sourceAuthority := 0, recency := 0,
      frequency := 0, sentiment := 50, context := 0, confidence := 0,
      mentions := 0, lastMentionDate := now }
  | m0 :: rest =>
    let ms := m0 :: rest
    let sorted := sortByTimestampDesc ms
    let newest := sorted.headD m0
    let sourceAuthorityScore : ℚ := min (authoritySum st ms / (ms.length : ℚ)) 100
    let recencyScore : ℝ := calculateRecencyScore st now newest.timestamp
    let frequencyScore : ℚ := calculateFrequencyScore ms
    let sentimentScore : ℝ := calculateSentimentScore st now ms
    let contextScore : ℚ := calculateContextScore st ms
    let p := st.parameters
    let totalScore : ℝ :=
      ((sourceAuthorityScore : ℝ) * (p.sourceWeightFactor : ℝ) +
        recencyScore * (p.recencyFactor : ℝ) +
        (frequencyScore : ℝ) * (p.frequencyFactor : ℝ) +
        sentimentScore * (p.sentimentFactor : ℝ) +
        (contextScore : ℝ) * (1 - (p.sentimentFactor : ℝ))) /
      ((p.sourceWeightFactor : ℝ) + (p.recencyFactor : ℝ) + (p.frequencyFactor : ℝ) +
        (p.sentimentFactor : ℝ) + (1 - (p.sentimentFactor : ℝ)))
    { brandName := brandName
      totalScore := totalScore
      sourceAuthority := sourceAuthorityScore
      recency := recencyScore
      frequency := frequencyScore
      sentiment := sentimentScore
      context := contextScore
      confidence := calculateConfidenceScore ms
      mentions := ms.length
      lastMentionDate := newest.timestamp }

/-! ## Source Graph recordConnection (spec §4.1) -/

inductive ValidationError where
  | selfConnection
  | strengthOutOfRange
deriving DecidableEq

structure RecordOutcome where
  log : List SourceConnection
  error : Option ValidationError
deriving DecidableEq

/-- Modelled from the spec: the repository's src/ has no `recordConnection`
operation (NetworkExpansionService only appends connections through the
mock `analyzeBacklinks`); spec §4.1 defines it as appending a
`SourceConnection`, failing with `ValidationError` when sourceId equals
targetId or the strength is outside [0,100], the log unchanged on
failure. -/
def recordConnection (log : List SourceConnection) (sourceId targetId : String)
    (connectionType : ConnectionType) (strength : ℚ) (now : ℚ) : RecordOutcome :=
  if sourceId = targetId then
    { log := log, error := some ValidationError.selfConnection }
  else if strength < 0 ∨ 100 < strength then
    { log := log, error := some ValidationError.strengthOutOfRange }
  else
    { log := log ++ [⟨sourceId, targetId, connectionType, strength, now⟩], error := none }

/-! ## Feedback Controller (services/FeedbackLoopService.ts) -/

structure BrandFeedback where
  brandName : String
  userRating : ℚ
  comment : Option String
  timestamp : ℚ
deriving DecidableEq

structure SourcePerformance where
  sourceId : String
  predictiveAccuracy : ℚ
  trendLeadTime : ℚ
  userFeedbackScore : ℚ
  falsePositiveRate : ℚ
  overallScore : ℚ
deriving DecidableEq

/-- The constructor of FeedbackLoopService: one neutral performance record
per seed source. -/
def initialSourcePerformance : List SourcePerformance :=
  SEED_SOURCES.map (fun source =>
    { sourceId := source.id, predictiveAccuracy := 50, trendLeadTime := 0,
      userFeedbackScore := 50, falsePositiveRate := 0, overallScore := 50 })

/-- The mutable state of the FeedbackLoopService class. -/
structure FeedbackState where
  brandFeedback : List BrandFeedback
  sourcePerformance : List SourcePerformance

/-- How many mentions of the feedback's brand a given source contributed
(the mentionsBySource counting loop of
updateSourcePerformanceFromFeedback). -/
def mentionCountForSource (mentions : List BrandMention) (brandName sourceId : String) : ℕ :=
  (getBrandMentionsByBrand mentions brandName).countP (fun m => m.sourceId == sourceId)

/-- The per-record body of updateSourcePerformanceFromFeedback: the
EMA updates (smoothing 0.1) applied to one qualifying source's
performance, written with the literals of the source. -/
def applyFeedbackToPerformance (f : BrandFeedback) (p : SourcePerformance) :
    SourcePerformance :=
  let ratingScore : ℚ := (f.userRating - 1) * 25
  let p1 :=
    if 4 ≤ f.userRating then
      { p with predictiveAccuracy := p.predictiveAccuracy * 0.9 + 100 * 0.1,
               falsePositiveRate := p.falsePositiveRate * 0.9 }
    else if f.userRating ≤ 2 then
      { p with predictiveAccuracy := p.predictiveAccuracy * 0.9 + 0 * 0.1,
               falsePositiveRate := p.falsePositiveRate * 0.9 + 1 * 0.1 }
    else p
  let p2 := { p1 with userFeedbackScore := p1.userFeedbackScore * 0.9 + ratingScore * 0.1 }
  { p2 with overallScore :=
      p2.predictiveAccuracy * 0.5 + p2.userFeedbackScore * 0.3 +
        (1 - p2.falsePositiveRate) * 100 * 0.2 }

/-- updateSourcePerformanceFromFeedback of FeedbackLoopService.ts: every
performance record whose source contributed at least 2 mentions to the
rated brand receives the EMA update; every other record is untouched
(sources with fewer than 2 mentions are skipped, and sources without a
record are ignored). -/
def updateSourcePerformanceFromFeedback (mentions : List BrandMention)
    (performance : List SourcePerformance) (f : BrandFeedback) : List SourcePerformance :=
  performance.map (fun p =>
    if 2 ≤ mentionCountForSource mentions f.brandName p.sourceId then
      applyFeedbackToPerformance f p
    else p)

/-- The descending sort by overallScore used by
adjustScoringBasedOnFeedback and getRecommendedSourceWeights. -/
def sortByOverallScoreDesc (performance : List SourcePerformance) : List SourcePerformance :=
  performance.mergeSort (fun a b => decide (b.overallScore ≤ a.overallScore))

/-- adjustScoringBasedOnFeedback of FeedbackLoopService.ts: returns the
ScoringParameters the scoring algorithm holds afterwards. Gated on at
least 5 accumulated feedback entries, at least one non-neutral rating, and
an overall confirm-rate of at most 0.8; then sourceWeightFactor moves by
0.05 towards [0.3, 0.7] depending on the spread of source performance, and
recencyFactor moves by 0.05 within [0.3, 0.8] depending on the trailing
7-day confirm-rate. -/
def adjustScoringBasedOnFeedback (state : FeedbackState) (currentParams : ScoringParameters)
    (now : ℚ) : ScoringParameters :=
  if state.brandFeedback.length < 5 then currentParams
  else
    let feedbackCorrect : ℕ := (state.brandFeedback.filter (fun f => 4 ≤ f.userRating)).length
    let feedbackIncorrect : ℕ := (state.brandFeedback.filter (fun f => f.userRating ≤ 2)).length
    let totalFeedback : ℕ := feedbackCorrect + feedbackIncorrect
    if totalFeedback = 0 then currentParams
    else
      let accuracy : ℚ := (feedbackCorrect : ℚ) / (totalFeedback : ℚ)
      if 0.8 < accuracy then currentParams
      else
        let sortedSources := sortByOverallScoreDesc state.sourcePerformance
        let p1 :=
          match sortedSources with
          | [] =>
            { currentParams with
                sourceWeightFactor := max (currentParams.sourceWeightFactor - 0.05) 0.3 }
          | best :: rest =>
            let worst := rest.getLastD best
            if 70 < best.overallScore ∧ 20 < best.overallScore - worst.overallScore then
              { currentParams with
                  sourceWeightFactor := min (currentParams.sourceWeightFactor + 0.05) 0.7 }
            else
              { currentParams with
                  sourceWeightFactor := max (currentParams.sourceWeightFactor - 0.05) 0.3 }
        let recentFeedback := state.brandFeedback.filter
          (fun f => (now - f.timestamp) / msPerDay < 7)
        if recentFeedback.length = 0 then p1
        else
          let recentCorrect : ℕ := (recentFeedback.filter (fun f => 4 ≤ f.userRating)).length
          let recentAccuracy : ℚ := (recentCorrect : ℚ) / (recentFeedback.length : ℚ)
          if accuracy < recentAccuracy then
            { p1 with recencyFactor := min (p1.recencyFactor + 0.05) 0.8 }
          else
            { p1 with recencyFactor := max (p1.recencyFactor - 0.05) 0.3 }

/-- Math.round: round half towards positive infinity. -/
def jsRound (x : ℚ) : ℤ := ⌊x + 0.5⌋

structure WeightRecommendation where
  sourceId : String
  currentWeight : ℚ
  recommendedWeight : ℚ
deriving DecidableEq

/-- The per-source body of getRecommendedSourceWeights: the recommended
weight before the meaningful-change filter. -/
def recommendedWeightFor (p : SourcePerformance) (source : SeedSource) : ℚ :=
  if 75 < p.overallScore then min (source.weight * 1.2) (source.weight + 10)
  else if p.overallScore < 40 then max (source.weight * 0.8) 5
  else source.weight

/-- getRecommendedSourceWeights of FeedbackLoopService.ts: empty unless at
least 3 performance records and 5 feedback entries exist; otherwise one
entry per performance record whose source exists and whose recommended
weight differs from the current weight by at least 2, the recommendation
rounded. -/
def getRecommendedSourceWeights (state : FeedbackState) : List WeightRecommendation :=
  let performances := sortByOverallScoreDesc state.sourcePerformance
  if performances.length < 3 ∨ state.brandFeedback.length < 5 then []
  else
    performances.filterMap (fun p =>
      match SEED_SOURCES.find? (fun s => s.id == p.sourceId) with
      | none => none
      | some source =>
        let recommendedWeight := recommendedWeightFor p source
        if 2 ≤ |recommendedWeight - source.weight| then
          some { sourceId := source.id, currentWeight := source.weight,
                 recommendedWeight := (jsRound recommendedWeight : ℚ) }
        else none)

/-! ## Example inputs used by witnesses and counterexamples -/

/-- Brand and source-id constants used by concrete witnesses and
counterexamples. -/
def acmeBrand : String := "Acme"

def highsnobietyId : String := "highsnobiety"

def unknownBlogId : String := "unknown-blog"

/-- The all-zero centrality map (no network analysis run yet). -/
def zeroCentrality : String → ℚ := fun _ => 0

/-- The scoring algorithm in its initial state. -/
def defaultState : ScoringState :=
  { parameters := defaultParameters, sourceCentrality := zeroCentrality }

/-- A mention of "Acme" from the top-weight seed source at epoch time 0,
carrying no sentiment. -/
def acmeMention : BrandMention :=
  { brandName := acmeBrand, sourceId := highsnobietyId, url := "", context := "",
    timestamp := 0, sentiment := none, productName := none, productCategory := none }

/-! ## Helper lemmas -/

theorem seed_weights_nonneg : ∀ s ∈ SEED_SOURCES, 0 ≤ s.weight := by decide

theorem getEffectiveSourceWeight_nonneg (st : ScoringState)
    (hswf : 0 ≤ st.parameters.sourceWeightFactor)
    (hcf : 0 ≤ st.parameters.centralityFactor)
    (hcent : ∀ sid, 0 ≤ st.sourceCentrality sid) (sourceId : String) :
    0 ≤ getEffectiveSourceWeight st sourceId := by
  unfold getEffectiveSourceWeight
  cases h : SEED_SOURCES.find? (fun s => s.id == sourceId) with
  | none => exact le_refl 0
  | some source =>
    have hw : 0 ≤ source.weight := seed_weights_nonneg source (List.mem_of_find?_eq_some h)
    exact add_nonneg (mul_nonneg hw hswf) (mul_nonneg (hcent sourceId) hcf)

theorem calculateRecencyScore_nonneg (st : ScoringState) (now t : ℚ) :
    0 ≤ calculateRecencyScore st now t := by
  simp only [calculateRecencyScore]
  have h := Real.rpow_nonneg (by norm_num : (0:ℝ) ≤ 0.5)
    (((now - t) / msPerDay / st.parameters.recencyDecayDays : ℚ) : ℝ)
  nlinarith

theorem calculateRecencyScore_le_100 (st : ScoringState) (now t : ℚ) (ht : t ≤ now)
    (hd : 0 < st.parameters.recencyDecayDays) : calculateRecencyScore st now t ≤ 100 := by
  simp only [calculateRecencyScore]
  have hexp : (0:ℝ) ≤ (((now - t) / msPerDay / st.parameters.recencyDecayDays : ℚ) : ℝ) := by
    rw [Rat.cast_nonneg]
    exact div_nonneg (div_nonneg (by linarith) (by norm_num [msPerDay])) hd.le
  have h1 := Real.rpow_le_one (by norm_num : (0:ℝ) ≤ 0.5) (by norm_num : (0.5:ℝ) ≤ 1) hexp
  nlinarith

theorem mentionSentimentWeight_nonneg (st : ScoringState) (now : ℚ) (m : BrandMention)
    (h : 0 ≤ getEffectiveSourceWeight st m.sourceId) :
    0 ≤ mentionSentimentWeight st now m :=
  mul_nonneg (by exact_mod_cast h)
    (div_nonneg (calculateRecencyScore_nonneg st now m.timestamp) (by norm_num))

theorem sentimentSums_foldl_bound (st : ScoringState) (now : ℚ) :
    ∀ (mentions : List BrandMention) (acc : ℝ × ℝ),
    (∀ m ∈ mentions, 0 ≤ mentionSentimentWeight st now m) →
    (∀ m ∈ mentions, ∀ s : ℚ, m.sentiment = some s → -1 ≤ s ∧ s ≤ 1) →
    0 ≤ acc.2 → |acc.1| ≤ acc.2 →
    0 ≤ (mentions.foldl (sentimentStep st now) acc).2 ∧
      |(mentions.foldl (sentimentStep st now) acc).1| ≤
        (mentions.foldl (sentimentStep st now) acc).2 := by
  intro mentions
  induction mentions with
  | nil => intro acc _ _ h2 h1; exact ⟨h2, h1⟩
  | cons m ms ih =>
    intro acc hw hs h2 h1
    simp only [List.foldl_cons]
    apply ih
    · intro x hx; exact hw x (List.mem_cons_of_mem m hx)
    · intro x hx; exact hs x (List.mem_cons_of_mem m hx)
    · show 0 ≤ (sentimentStep st now acc m).2
      unfold sentimentStep
      cases hm : m.sentiment with
      | none => exact h2
      | some s =>
        have := hw m (List.mem_cons_self m ms)
        simpa using add_nonneg h2 this
    · show |(sentimentStep st now acc m).1| ≤ (sentimentStep st now acc m).2
      unfold sentimentStep
      cases hm : m.sentiment with
      | none => exact h1
      | some s =>
        have hwm := hw m (List.mem_cons_self m ms)
        have hsr := hs m (List.mem_cons_self m ms) s hm
        have habs : |(s : ℝ) * mentionSentimentWeight st now m| ≤
            mentionSentimentWeight st now m := by
          rw [abs_mul, abs_of_nonneg hwm]
          have h01 : |(s : ℝ)| ≤ 1 := by
            rw [abs_le]
            constructor <;> [exact_mod_cast hsr.1; exact_mod_cast hsr.2]
          nlinarith [abs_nonneg ((s : ℝ))]
        calc |acc.1 + (s : ℝ) * mentionSentimentWeight st now m|
            ≤ |acc.1| + |(s : ℝ) * mentionSentimentWeight st now m| := abs_add _ _
          _ ≤ acc.2 + mentionSentimentWeight st now m := add_le_add h1 habs

theorem sentimentSums_bound (st : ScoringState) (now : ℚ) (mentions : List BrandMention)
    (hw : ∀ m ∈ mentions, 0 ≤ mentionSentimentWeight st now m)
    (hs : ∀ m ∈ mentions, ∀ s : ℚ, m.sentiment = some s → -1 ≤ s ∧ s ≤ 1) :
    0 ≤ (sentimentSums st now mentions).2 ∧
      |(sentimentSums st now mentions).1| ≤ (sentimentSums st now mentions).2 :=
  sentimentSums_foldl_bound st now mentions (0, 0) hw hs (le_refl 0) (by simp)

theorem sentimentSums_append (st : ScoringState) (now : ℚ) (ms : List BrandMention)
    (m : BrandMention) :
    sentimentSums st now (ms ++ [m]) = sentimentStep st now (sentimentSums st now ms) m := by
  simp [sentimentSums, List.foldl_append]

theorem calculateSentimentScore_bounds (st : ScoringState) (now : ℚ)
    (mentions : List BrandMention)
    (hw : ∀ m ∈ mentions, 0 ≤ mentionSentimentWeight st now m)
    (hs : ∀ m ∈ mentions, ∀ s : ℚ, m.sentiment = some s → -1 ≤ s ∧ s ≤ 1) :
    0 ≤ calculateSentimentScore st now mentions ∧
      calculateSentimentScore st now mentions ≤ 100 := by
  unfold calculateSentimentScore
  by_cases h0 : mentions.length = 0
  · simp only [h0, if_pos rfl, if_true]
    norm_num
  · simp only [h0, if_false]
    obtain ⟨hW, hS⟩ := sentimentSums_bound st now mentions hw hs
    by_cases hz : (sentimentSums st now mentions).2 = 0
    · simp only [hz, if_pos rfl, if_true]
      norm_num
    · simp only [hz, if_false]
      have hWpos : 0 < (sentimentSums st now mentions).2 := lt_of_le_of_ne hW (Ne.symm hz)
      rw [abs_le] at hS
      have hratlo : -1 ≤ (sentimentSums st now mentions).1 / (sentimentSums st now mentions).2 := by
        rw [neg_le, ← neg_div]
        exact div_le_one_of_le₀ (by linarith [hS.1]) hW
      have hrathi : (sentimentSums st now mentions).1 / (sentimentSums st now mentions).2 ≤ 1 :=
        div_le_one_of_le₀ hS.2 hW
      constructor <;> nlinarith

theorem calculateFrequencyScore_bounds (mentions : List BrandMention) :
    0 ≤ calculateFrequencyScore mentions ∧ calculateFrequencyScore mentions ≤ 100 := by
  unfold calculateFrequencyScore
  cases h : sortByTimestampDesc mentions with
  | nil => norm_num
  | cons newest rest =>
    simp only []
    by_cases hd : (newest.timestamp - (rest.getLastD newest).timestamp) / msPerDay < 1
    · rw [if_pos hd]
      constructor
      · exact le_min (by positivity) (by norm_num)
      · exact min_le_right _ _
    · rw [if_neg hd]
      constructor
      · have hmax : (0:ℚ) < max ((newest.timestamp - (rest.getLastD newest).timestamp) / msPerDay) 1 :=
          lt_of_lt_of_le one_pos (le_max_right _ 1)
        exact le_min (by positivity) (by norm_num)
      · exact min_le_right _ _

theorem mentionContextScore_nonneg (p : ScoringParameters) (m : BrandMention)
    (hpm : 0 ≤ p.productMentionBoost) (hcd : 0 ≤ p.contextDetailBoost) :
    0 ≤ mentionContextScore p m := by
  unfold mentionContextScore
  by_cases h1 : jsTruthy m.productName <;> by_cases h2 : m.context.length > 50 <;>
    simp only [h1, h2, if_pos, if_neg, if_true, if_false, Bool.false_eq_true] <;> positivity

theorem calculateContextScore_bounds (st : ScoringState) (mentions : List BrandMention)
    (hpm : 0 ≤ st.parameters.productMentionBoost)
    (hcd : 0 ≤ st.parameters.contextDetailBoost) :
    0 ≤ calculateContextScore st mentions ∧ calculateContextScore st mentions ≤ 100 := by
  unfold calculateContextScore
  by_cases h0 : mentions.length = 0
  · simp [h0]
  · rw [if_neg h0]
    refine ⟨le_min ?_ (by norm_num), min_le_right _ _⟩
    apply div_nonneg
    · apply List.sum_nonneg
      intro x hx
      obtain ⟨m, _, rfl⟩ := List.mem_map.mp hx
      exact mentionContextScore_nonneg st.parameters m hpm hcd
    · positivity

theorem authority_component_bounds (st : ScoringState) (mentions : List BrandMention)
    (hswf : 0 ≤ st.parameters.sourceWeightFactor)
    (hcf : 0 ≤ st.parameters.centralityFactor)
    (hcent : ∀ sid, 0 ≤ st.sourceCentrality sid) :
    0 ≤ min (authoritySum st mentions / (mentions.length : ℚ)) 100 ∧
      min (authoritySum st mentions / (mentions.length : ℚ)) 100 ≤ 100 := by
  refine ⟨le_min ?_ (by norm_num), min_le_right _ _⟩
  apply div_nonneg
  · apply List.sum_nonneg
    intro x hx
    obtain ⟨m, _, rfl⟩ := List.mem_map.mp hx
    exact getEffectiveSourceWeight_nonneg st hswf hcf hcent m.sourceId
  · positivity

theorem sortByTimestampDesc_headD_mem (m0 : BrandMention) (ms : List BrandMention)
    (hm : m0 ∈ ms) : (sortByTimestampDesc ms).headD m0 ∈ ms := by
  cases h : sortByTimestampDesc ms with
  | nil => simpa using hm
  | cons a l =>
    have ha : a ∈ sortByTimestampDesc ms := by rw [h]; exact List.mem_cons_self a l
    rw [sortByTimestampDesc, List.mem_mergeSort] at ha
    simpa using ha

/-! ## Claim theorems -/

/-- C3: recording a source connection whose sourceId equals its targetId
fails with a ValidationError and leaves the connection log unchanged
(recordConnection is modelled from spec §4.1; src/ has no such
operation). -/
theorem recordConnection_self_rejected (log : List SourceConnection) (sid : String)
    (connectionType : ConnectionType) (strength : ℚ) (now : ℚ) :
    (recordConnection log sid sid connectionType strength now).error =
        some ValidationError.selfConnection ∧
      (recordConnection log sid sid connectionType strength now).log = log := by
  unfold recordConnection
  rw [if_pos rfl]
  exact ⟨rfl, rfl⟩

/-- C7: scoring a brand with an empty mention set returns the defined
zero/neutral record: totalScore 0, sourceAuthority 0, recency 0,
frequency 0, context 0, sentiment 50, confidence 0 and mention count 0. -/
theorem calculateBrandTrendScore_empty (st : ScoringState) (now : ℚ) (brandName : String) :
    (calculateBrandTrendScore st now brandName []).totalScore = 0 ∧
      (calculateBrandTrendScore st now brandName []).sourceAuthority = 0 ∧
      (calculateBrandTrendScore st now brandName []).recency = 0 ∧
      (calculateBrandTrendScore st now brandName []).frequency = 0 ∧
      (calculateBrandTrendScore st now brandName []).context = 0 ∧
      (calculateBrandTrendScore st now brandName []).sentiment = 50 ∧
      (calculateBrandTrendScore st now brandName []).confidence = 0 ∧
      (calculateBrandTrendScore st now brandName []).mentions = 0 := by
  refine ⟨rfl, rfl, rfl, rfl, rfl, rfl, rfl, rfl⟩

/-- C2 counterexample: the same brand, mention set, parameters and
centrality scored at two different wall-clock instants (epoch 0 and 14
days later) produce different totalScores, because calculateRecencyScore
reads the clock: scoring is not a pure function of (mentions, centrality,
parameters) alone. -/
theorem scoring_depends_on_clock :
    (calculateBrandTrendScore defaultState 0 acmeBrand [acmeMention]).totalScore ≠
      (calculateBrandTrendScore defaultState 1209600000 acmeBrand [acmeMention]).totalScore := by
  have hsort : sortByTimestampDesc [acmeMention] = [acmeMention] := by
    rw [sortByTimestampDesc]; exact List.mergeSort_singleton acmeMention
  have hfind : SEED_SOURCES.find? (fun s => s.id == highsnobietyId) =
      some ⟨"highsnobiety", "Highsnobiety", "https://www.highsnobiety.com",
        SourceCategory.editorial, 30⟩ := rfl
  have heff : getEffectiveSourceWeight defaultState highsnobietyId = 15 := by
    simp only [getEffectiveSourceWeight, hfind]
    norm_num [defaultState, defaultParameters, zeroCentrality]
  have hr0 : calculateRecencyScore defaultState 0 0 = 100 := by
    simp only [calculateRecencyScore]
    have h : ((0 - 0 : ℚ) / msPerDay / defaultState.parameters.recencyDecayDays : ℚ) = 0 := by
      norm_num
    rw [h]
    simp [Real.rpow_zero]
  have hr14 : calculateRecencyScore defaultState 1209600000 0 = 50 := by
    simp only [calculateRecencyScore]
    have h : ((1209600000 - 0 : ℚ) / msPerDay /
        defaultState.parameters.recencyDecayDays : ℚ) = 1 := by
      norm_num [msPerDay, defaultState, defaultParameters]
    rw [h]
    push_cast
    rw [Real.rpow_one]
    norm_num
  have key : ∀ now : ℚ,
      (calculateBrandTrendScore defaultState now acmeBrand [acmeMention]).totalScore =
        ((15 : ℝ) * 0.5 + calculateRecencyScore defaultState now 0 * 0.6 +
          20 * 0.5 + 50 * 0.4 + 50 * 0.6) / 2.6 := by
    intro now
    simp only [calculateBrandTrendScore, hsort, List.headD]
    have hts : acmeMention.timestamp = 0 := rfl
    have hsent : calculateSentimentScore defaultState now [acmeMention] = 50 := by
      simp [calculateSentimentScore, sentimentSums, sentimentStep, acmeMention]
    have hfreq : calculateFrequencyScore [acmeMention] = 20 := by
      simp only [calculateFrequencyScore, hsort]
      norm_num
    have hauth : authoritySum defaultState [acmeMention] = 15 := by
      simp [authoritySum, acmeMention, heff]
    have hctx : calculateContextScore defaultState [acmeMention] = 50 := by
      simp [calculateContextScore, mentionContextScore, jsTruthy, acmeMention]
      norm_num
    rw [hts, hsent, hfreq, hauth, hctx]
    norm_num [defaultState, defaultParameters]
  rw [key 0, key 1209600000, hr0, hr14]
  norm_num

/-- C2 amended: scoring is a pure function of (mentions, centrality,
parameters, evaluation time): two calls with the same mention set, the same
parameters, the same centrality map and the same clock instant yield
identical BrandTrendScore results. -/
theorem calculateBrandTrendScore_pure (st₁ st₂ : ScoringState) (now₁ now₂ : ℚ)
    (brandName : String) (mentions : List BrandMention)
    (hp : st₁.parameters = st₂.parameters)
    (hc : st₁.sourceCentrality = st₂.sourceCentrality)
    (hn : now₁ = now₂) :
    calculateBrandTrendScore st₁ now₁ brandName mentions =
      calculateBrandTrendScore st₂ now₂ brandName mentions := by
  cases st₁ with
  | mk p1 c1 =>
    cases st₂ with
    | mk p2 c2 =>
      dsimp only at hp hc
      subst hp; subst hc; subst hn; rfl

/-- Witness for the amended C2: scoring the same concrete inputs at the
same concrete instant twice gives the same result. -/
theorem calculateBrandTrendScore_pure_witness :
    calculateBrandTrendScore defaultState 0 acmeBrand [acmeMention] =
      calculateBrandTrendScore defaultState 0 acmeBrand [acmeMention] :=
  calculateBrandTrendScore_pure defaultState defaultState 0 0 acmeBrand [acmeMention] rfl rfl rfl

/-- The field-level behaviour of one qualifying EMA update (the body of
updateSourcePerformanceFromFeedback for a source with enough mentions). -/
theorem applyFeedbackToPerformance_fields (f : BrandFeedback) (p : SourcePerformance) :
    (applyFeedbackToPerformance f p).sourceId = p.sourceId ∧
    (applyFeedbackToPerformance f p).trendLeadTime = p.trendLeadTime ∧
    (4 ≤ f.userRating →
      (applyFeedbackToPerformance f p).predictiveAccuracy =
          0.9 * p.predictiveAccuracy + 0.1 * 100 ∧
        (applyFeedbackToPerformance f p).falsePositiveRate = 0.9 * p.falsePositiveRate) ∧
    (f.userRating ≤ 2 →
      (applyFeedbackToPerformance f p).predictiveAccuracy = 0.9 * p.predictiveAccuracy ∧
        (applyFeedbackToPerformance f p).falsePositiveRate =
          0.9 * p.falsePositiveRate + 0.1) ∧
    (f.userRating = 3 →
      (applyFeedbackToPerformance f p).predictiveAccuracy = p.predictiveAccuracy ∧
        (applyFeedbackToPerformance f p).falsePositiveRate = p.falsePositiveRate) ∧
    (applyFeedbackToPerformance f p).userFeedbackScore =
      0.9 * p.userFeedbackScore + 0.1 * ((f.userRating - 1) * 25) ∧
    (applyFeedbackToPerformance f p).overallScore =
      (applyFeedbackToPerformance f p).predictiveAccuracy * 0.5 +
        (applyFeedbackToPerformance f p).userFeedbackScore * 0.3 +
        (1 - (applyFeedbackToPerformance f p).falsePositiveRate) * 100 * 0.2 := by
  refine ⟨?_, ?_, ?_, ?_, ?_, ?_, ?_⟩
  · simp only [applyFeedbackToPerformance]
    split_ifs <;> rfl
  · simp only [applyFeedbackToPerformance]
    split_ifs <;> rfl
  · intro h4
    simp only [applyFeedbackToPerformance, if_pos h4]
    constructor <;> ring
  · intro h2
    have h4 : ¬ 4 ≤ f.userRating := fun h => by linarith
    simp only [applyFeedbackToPerformance, if_neg h4, if_pos h2]
    constructor <;> ring
  · intro h3
    have h4 : ¬ 4 ≤ f.userRating := by rw [h3]; norm_num
    have h2 : ¬ f.userRating ≤ 2 := by rw [h3]; norm_num
    simp only [applyFeedbackToPerformance, if_neg h4, if_neg h2]
    exact ⟨trivial, trivial⟩
  · simp only [applyFeedbackToPerformance]
    split_ifs <;> ring
  · rfl

/-- C5: recording feedback updates, for every source with at least 2
mentions of the rated brand, predictiveAccuracy and falsePositiveRate by
EMA according to the rating band (ratings ≥ 4 confirm, ≤ 2 refute, 3 is
neutral), always updates userFeedbackScore, and recomputes overallScore
from the new fields; sources with fewer than 2 contributing mentions keep
all performance fields unchanged. -/
theorem updateSourcePerformanceFromFeedback_spec (mentions : List BrandMention)
    (performance : List SourcePerformance) (f : BrandFeedback) :
    List.Forall₂ (fun p q =>
      (mentionCountForSource mentions f.brandName p.sourceId < 2 → q = p) ∧
      (2 ≤ mentionCountForSource mentions f.brandName p.sourceId →
        q.sourceId = p.sourceId ∧
        q.trendLeadTime = p.trendLeadTime ∧
        (4 ≤ f.userRating →
          q.predictiveAccuracy = 0.9 * p.predictiveAccuracy + 0.1 * 100 ∧
            q.falsePositiveRate = 0.9 * p.falsePositiveRate) ∧
        (f.userRating ≤ 2 →
          q.predictiveAccuracy = 0.9 * p.predictiveAccuracy ∧
            q.falsePositiveRate = 0.9 * p.falsePositiveRate + 0.1) ∧
        (f.userRating = 3 →
          q.predictiveAccuracy = p.predictiveAccuracy ∧
            q.falsePositiveRate = p.falsePositiveRate) ∧
        q.userFeedbackScore = 0.9 * p.userFeedbackScore + 0.1 * ((f.userRating - 1) * 25) ∧
        q.overallScore = q.predictiveAccuracy * 0.5 + q.userFeedbackScore * 0.3 +
          (1 - q.falsePositiveRate) * 100 * 0.2))
      performance (updateSourcePerformanceFromFeedback mentions performance f) := by
  unfold updateSourcePerformanceFromFeedback
  rw [List.forall₂_map_right_iff, List.forall₂_same]
  intro p _
  by_cases hc : 2 ≤ mentionCountForSource mentions f.brandName p.sourceId
  · rw [if_pos hc]
    exact ⟨fun hlt => absurd hc (by omega), fun _ => applyFeedbackToPerformance_fields f p⟩
  · rw [if_neg hc]
    exact ⟨fun _ => rfl, fun hge => absurd hge hc⟩

/-- Every run of the parameter-adjustment step produces the current
parameters with sourceWeightFactor and recencyFactor each either kept or
moved by 0.05 into their clamp interval, and no other field touched. -/
theorem adjustScoringBasedOnFeedback_outcome (state : FeedbackState)
    (params : ScoringParameters) (now : ℚ) :
    ∃ swf' rf',
      (swf' = params.sourceWeightFactor ∨
        swf' = min (params.sourceWeightFactor + 0.05) 0.7 ∨
        swf' = max (params.sourceWeightFactor - 0.05) 0.3) ∧
      (rf' = params.recencyFactor ∨
        rf' = min (params.recencyFactor + 0.05) 0.8 ∨
        rf' = max (params.recencyFactor - 0.05) 0.3) ∧
      adjustScoringBasedOnFeedback state params now =
        { params with sourceWeightFactor := swf', recencyFactor := rf' } := by
  unfold adjustScoringBasedOnFeedback
  by_cases h1 : state.brandFeedback.length < 5
  · rw [if_pos h1]
    exact ⟨params.sourceWeightFactor, params.recencyFactor, Or.inl rfl, Or.inl rfl, rfl⟩
  rw [if_neg h1]
  by_cases h2 : (state.brandFeedback.filter (fun f => 4 ≤ f.userRating)).length +
      (state.brandFeedback.filter (fun f => f.userRating ≤ 2)).length = 0
  · rw [if_pos h2]
    exact ⟨params.sourceWeightFactor, params.recencyFactor, Or.inl rfl, Or.inl rfl, rfl⟩
  rw [if_neg h2]
  by_cases h3 : (0.8 : ℚ) <
      ((state.brandFeedback.filter (fun f => 4 ≤ f.userRating)).length : ℚ) /
        (((state.brandFeedback.filter (fun f => 4 ≤ f.userRating)).length +
          (state.brandFeedback.filter (fun f => f.userRating ≤ 2)).length : ℕ) : ℚ)
  · rw [if_pos h3]
    exact ⟨params.sourceWeightFactor, params.recencyFactor, Or.inl rfl, Or.inl rfl, rfl⟩
  rw [if_neg h3]
  have main : ∀ p1 : ScoringParameters,
      p1.recencyFactor = params.recencyFactor →
      ∃ rf',
        (rf' = params.recencyFactor ∨
          rf' = min (params.recencyFactor + 0.05) 0.8 ∨
          rf' = max (params.recencyFactor - 0.05) 0.3) ∧
        (if (state.brandFeedback.filter (fun f => (now - f.timestamp) / msPerDay < 7)).length = 0
          then p1
          else
            if ((state.brandFeedback.filter (fun f => 4 ≤ f.userRating)).length : ℚ) /
                (((state.brandFeedback.filter (fun f => 4 ≤ f.userRating)).length +
                  (state.brandFeedback.filter (fun f => f.userRating ≤ 2)).length : ℕ) : ℚ) <
                (((state.brandFeedback.filter
                    (fun f => (now - f.timestamp) / msPerDay < 7)).filter
                      (fun f => 4 ≤ f.userRating)).length : ℚ) /
                  ((state.brandFeedback.filter
                    (fun f => (now - f.timestamp) / msPerDay < 7)).length : ℚ)
            then { p1 with recencyFactor := min (p1.recencyFactor + 0.05) 0.8 }
            else { p1 with recencyFactor := max (p1.recencyFactor - 0.05) 0.3 }) =
          { p1 with recencyFactor := rf' } := by
    intro p1 hrf
    by_cases h4 : (state.brandFeedback.filter
        (fun f => (now - f.timestamp) / msPerDay < 7)).length = 0
    · rw [if_pos h4]
      exact ⟨params.recencyFactor, Or.inl rfl, by rw [← hrf]⟩
    rw [if_neg h4]
    by_cases h5 : ((state.brandFeedback.filter (fun f => 4 ≤ f.userRating)).length : ℚ) /
        (((state.brandFeedback.filter (fun f => 4 ≤ f.userRating)).length +
          (state.brandFeedback.filter (fun f => f.userRating ≤ 2)).length : ℕ) : ℚ) <
        (((state.brandFeedback.filter
            (fun f => (now - f.timestamp) / msPerDay < 7)).filter
              (fun f => 4 ≤ f.userRating)).length : ℚ) /
          ((state.brandFeedback.filter
            (fun f => (now - f.timestamp) / msPerDay < 7)).length : ℚ)
    · rw [if_pos h5, hrf]
      exact ⟨min (params.recencyFactor + 0.05) 0.8, Or.inr (Or.inl rfl), rfl⟩
    · rw [if_neg h5, hrf]
      exact ⟨max (params.recencyFactor - 0.05) 0.3, Or.inr (Or.inr rfl), rfl⟩
  cases hsort : sortByOverallScoreDesc state.sourcePerformance with
  | nil =>
    dsimp only
    obtain ⟨rf', hrf', heq⟩ :=
      main { params with sourceWeightFactor := max (params.sourceWeightFactor - 0.05) 0.3 } rfl
    exact ⟨max (params.sourceWeightFactor - 0.05) 0.3, rf', Or.inr (Or.inr rfl), hrf', heq⟩
  | cons best rest =>
    dsimp only
    by_cases h6 : 70 < best.overallScore ∧
        20 < best.overallScore - (rest.getLastD best).overallScore
    · rw [if_pos h6]
      obtain ⟨rf', hrf', heq⟩ :=
        main { params with sourceWeightFactor := min (params.sourceWeightFactor + 0.05) 0.7 } rfl
      exact ⟨min (params.sourceWeightFactor + 0.05) 0.7, rf', Or.inr (Or.inl rfl), hrf', heq⟩
    · rw [if_neg h6]
      obtain ⟨rf', hrf', heq⟩ :=
        main { params with sourceWeightFactor := max (params.sourceWeightFactor - 0.05) 0.3 } rfl
      exact ⟨max (params.sourceWeightFactor - 0.05) 0.3, rf', Or.inr (Or.inr rfl), hrf', heq⟩

/-- C6: the parameter-adjustment step leaves all ScoringParameters
unchanged when fewer than 5 feedback entries have accumulated or when the
overall confirm-rate (confirmed/(confirmed+refuted), neutral ratings
excluded) exceeds 0.8; and in every case it modifies at most
sourceWeightFactor (by 0.05, clamped into [0.3, 0.7]) and recencyFactor
(by 0.05, clamped into [0.3, 0.8]), leaving centralityFactor,
sentimentFactor, recencyDecayDays, frequencyFactor, productMentionBoost
and contextDetailBoost unchanged. -/
theorem adjustScoringBasedOnFeedback_frame (state : FeedbackState)
    (params : ScoringParameters) (now : ℚ) :
    (state.brandFeedback.length < 5 →
      adjustScoringBasedOnFeedback state params now = params) ∧
    ((0.8 : ℚ) <
        ((state.brandFeedback.filter (fun f => 4 ≤ f.userRating)).length : ℚ) /
          (((state.brandFeedback.filter (fun f => 4 ≤ f.userRating)).length +
            (state.brandFeedback.filter (fun f => f.userRating ≤ 2)).length : ℕ) : ℚ) →
      adjustScoringBasedOnFeedback state params now = params) ∧
    (adjustScoringBasedOnFeedback state params now).centralityFactor =
      params.centralityFactor ∧
    (adjustScoringBasedOnFeedback state params now).sentimentFactor =
      params.sentimentFactor ∧
    (adjustScoringBasedOnFeedback state params now).recencyDecayDays =
      params.recencyDecayDays ∧
    (adjustScoringBasedOnFeedback state params now).frequencyFactor =
      params.frequencyFactor ∧
    (adjustScoringBasedOnFeedback state params now).productMentionBoost =
      params.productMentionBoost ∧
    (adjustScoringBasedOnFeedback state params now).contextDetailBoost =
      params.contextDetailBoost ∧
    ((adjustScoringBasedOnFeedback state params now).sourceWeightFactor =
        params.sourceWeightFactor ∨
      (adjustScoringBasedOnFeedback state params now).sourceWeightFactor =
        min (params.sourceWeightFactor + 0.05) 0.7 ∨
      (adjustScoringBasedOnFeedback state params now).sourceWeightFactor =
        max (params.sourceWeightFactor - 0.05) 0.3) ∧
    ((adjustScoringBasedOnFeedback state params now).recencyFactor = params.recencyFactor ∨
      (adjustScoringBasedOnFeedback state params now).recencyFactor =
        min (params.recencyFactor + 0.05) 0.8 ∨
      (adjustScoringBasedOnFeedback state params now).recencyFactor =
        max (params.recencyFactor - 0.05) 0.3) := by
  obtain ⟨swf', rf', hswf, hrf, heq⟩ := adjustScoringBasedOnFeedback_outcome state params now
  refine ⟨?_, ?_, ?_, ?_, ?_, ?_, ?_, ?_, ?_, ?_⟩
  · intro h
    unfold adjustScoringBasedOnFeedback
    rw [if_pos h]
  · intro h
    unfold adjustScoringBasedOnFeedback
    by_cases h1 : state.brandFeedback.length < 5
    · rw [if_pos h1]
    rw [if_neg h1]
    by_cases h2 : (state.brandFeedback.filter (fun f => 4 ≤ f.userRating)).length +
        (state.brandFeedback.filter (fun f => f.userRating ≤ 2)).length = 0
    · rw [if_pos h2]
    rw [if_neg h2, if_pos h]
  · rw [heq]
  · rw [heq]
  · rw [heq]
  · rw [heq]
  · rw [heq]
  · rw [heq]
  · rw [heq]; exact hswf
  · rw [heq]; exact hrf

/-- C8: source-weight recommendations are empty when fewer than 3 sources
have performance records or fewer than 5 feedback entries exist; otherwise
every emitted entry belongs to a performance record and a registered
source, recommends min(weight*1.2, weight+10) (rounded) when overallScore
exceeds 75 and max(weight*0.8, 5) (rounded) when overallScore is below 40,
and is emitted only when the recommended weight differs from the current
weight by at least 2. -/
theorem getRecommendedSourceWeights_spec (state : FeedbackState) :
    (state.sourcePerformance.length < 3 → getRecommendedSourceWeights state = []) ∧
    (state.brandFeedback.length < 5 → getRecommendedSourceWeights state = []) ∧
    (∀ r ∈ getRecommendedSourceWeights state,
      ∃ p ∈ state.sourcePerformance, ∃ source ∈ SEED_SOURCES,
        source.id = p.sourceId ∧
        r.sourceId = source.id ∧
        r.currentWeight = source.weight ∧
        (75 < p.overallScore →
          r.recommendedWeight =
            (jsRound (min (source.weight * 1.2) (source.weight + 10)) : ℚ)) ∧
        (p.overallScore < 40 →
          r.recommendedWeight = (jsRound (max (source.weight * 0.8) 5) : ℚ)) ∧
        2 ≤ |recommendedWeightFor p source - source.weight|) := by
  unfold getRecommendedSourceWeights
  have hlen : (sortByOverallScoreDesc state.sourcePerformance).length =
      state.sourcePerformance.length := by
    unfold sortByOverallScoreDesc
    exact List.length_mergeSort state.sourcePerformance
  by_cases hgate : (sortByOverallScoreDesc state.sourcePerformance).length < 3 ∨
      state.brandFeedback.length < 5
  · rw [if_pos hgate]
    exact ⟨fun _ => rfl, fun _ => rfl, fun r hr => absurd hr (List.not_mem_nil r)⟩
  · rw [if_neg hgate]
    push_neg at hgate
    refine ⟨?_, ?_, ?_⟩
    · intro h
      exact absurd (hlen ▸ h) (not_lt.mpr hgate.1)
    · intro h
      exact absurd h (not_lt.mpr hgate.2)
    · intro r hr
      rw [List.mem_filterMap] at hr
      obtain ⟨p, hp, hgp⟩ := hr
      have hpmem : p ∈ state.sourcePerformance := by
        rw [sortByOverallScoreDesc, List.mem_mergeSort] at hp
        exact hp
      cases hfind : SEED_SOURCES.find? (fun s => s.id == p.sourceId) with
      | none => rw [hfind] at hgp; exact absurd hgp (by simp)
      | some source =>
        rw [hfind] at hgp
        dsimp only at hgp
        by_cases habs : 2 ≤ |recommendedWeightFor p source - source.weight|
        · rw [if_pos habs, Option.some.injEq] at hgp
          have hbeq0 := List.find?_some hfind
          have hbeq : (source.id == p.sourceId) = true := hbeq0
          refine ⟨p, hpmem, source, List.mem_of_find?_eq_some hfind,
            eq_of_beq hbeq, ?_, ?_, ?_, ?_, habs⟩
          · rw [← hgp]
          · rw [← hgp]
          · intro h75
            rw [← hgp]
            show (jsRound (recommendedWeightFor p source) : ℚ) = _
            rw [recommendedWeightFor, if_pos h75]
          · intro h40
            rw [← hgp]
            show (jsRound (recommendedWeightFor p source) : ℚ) = _
            rw [recommendedWeightFor, if_neg (by linarith), if_pos h40]
        · rw [if_neg habs] at hgp
          exact absurd hgp (by simp)

/-- Ten identical backlink connections from ssense to highsnobiety, each
individually valid (distinct endpoints, strength 100 within [0,100]). -/
def dupConnections : List SourceConnection :=
  List.replicate 10
    { sourceId := "ssense", targetId := "highsnobiety",
      connectionType := ConnectionType.backlink, strength := 100, discoveredAt := 0 }

/-- C4 counterexample: a connection log of ten valid connections (strengths
in [0,100], no self-loops) that all target the same source drives that
source's centrality to 150, outside [0,100]: the incoming count is not
bounded by the number of sources when pairs repeat. -/
theorem centralityScore_exceeds_100 :
    (∀ c ∈ dupConnections, c.sourceId ≠ c.targetId ∧ 0 ≤ c.strength ∧ c.strength ≤ 100) ∧
      100 < centralityScore dupConnections highsnobietyId := by
  constructor
  · intro c hc
    rw [List.eq_of_mem_replicate hc]
    refine ⟨by decide, by norm_num, by norm_num⟩
  · have hfilter : dupConnections.filter (fun c => c.targetId == highsnobietyId) =
        dupConnections := by
      rw [List.filter_eq_self]
      intro c hc
      rw [List.eq_of_mem_replicate hc]
      rfl
    have hcount : incomingConnectionCount dupConnections highsnobietyId = 10 := by
      rw [incomingConnectionCount, List.countP_eq_length_filter, hfilter]
      rfl
    have hstrengths : incomingStrengths dupConnections highsnobietyId =
        List.replicate 10 (100 : ℚ) := by
      rw [incomingStrengths, hfilter, dupConnections, List.map_replicate]
    have hsum : (List.replicate 10 (100 : ℚ)).sum = 1000 := by
      rw [List.sum_replicate]
      norm_num
    have hlen6 : ((SEED_SOURCES.length : ℚ) - 1) = 5 := by norm_num [SEED_SOURCES]
    simp only [centralityScore, hcount, hstrengths, hsum, hlen6, List.length_replicate]
    norm_num

/-- C4 amended: centrality is computed by the claimed formula
(incoming/(|Sources|-1))*50 + avgStrength*0.5 with avgStrength 0 when no
connection targets the source; and whenever all strengths lie in [0,100]
and, additionally, each source has at most |Sources|-1 incoming
connections (as when ordered source pairs are not repeated), the resulting
centrality lies in [0,100]. -/
theorem centralityScore_formula_and_range (connections : List SourceConnection)
    (sourceId : String)
    (hstr : ∀ c ∈ connections, 0 ≤ c.strength ∧ c.strength ≤ 100)
    (hcount : incomingConnectionCount connections sourceId ≤ SEED_SOURCES.length - 1) :
    centralityScore connections sourceId =
      ((incomingConnectionCount connections sourceId : ℚ) /
          ((SEED_SOURCES.length : ℚ) - 1)) * 50 +
        (if 0 < (incomingStrengths connections sourceId).length
          then (incomingStrengths connections sourceId).sum /
            ((incomingStrengths connections sourceId).length : ℚ)
          else 0) * 0.5 ∧
      0 ≤ centralityScore connections sourceId ∧
      centralityScore connections sourceId ≤ 100 := by
  have hmem : ∀ q ∈ incomingStrengths connections sourceId, 0 ≤ q ∧ q ≤ 100 := by
    intro q hq
    rw [incomingStrengths, List.mem_map] at hq
    obtain ⟨c, hc, rfl⟩ := hq
    exact hstr c (List.mem_of_mem_filter hc)
  have havg : 0 ≤ (if 0 < (incomingStrengths connections sourceId).length
      then (incomingStrengths connections sourceId).sum /
        ((incomingStrengths connections sourceId).length : ℚ)
      else 0) ∧
      (if 0 < (incomingStrengths connections sourceId).length
        then (incomingStrengths connections sourceId).sum /
          ((incomingStrengths connections sourceId).length : ℚ)
        else 0) ≤ 100 := by
    by_cases hl : 0 < (incomingStrengths connections sourceId).length
    · rw [if_pos hl]
      have hlen : (0 : ℚ) < ((incomingStrengths connections sourceId).length : ℚ) := by
        exact_mod_cast hl
      constructor
      · exact div_nonneg (List.sum_nonneg (fun q hq => (hmem q hq).1)) hlen.le
      · rw [div_le_iff₀ hlen]
        have := List.sum_le_card_nsmul (incomingStrengths connections sourceId) 100
          (fun q hq => (hmem q hq).2)
        rw [nsmul_eq_mul] at this
        linarith
    · rw [if_neg hl]
      norm_num
  have hlen6 : ((SEED_SOURCES.length : ℚ) - 1) = 5 := by norm_num [SEED_SOURCES]
  have hc5 : (incomingConnectionCount connections sourceId : ℚ) ≤ 5 := by
    have : incomingConnectionCount connections sourceId ≤ 5 := by
      simpa [SEED_SOURCES] using hcount
    exact_mod_cast this
  have hc0 : (0 : ℚ) ≤ (incomingConnectionCount connections sourceId : ℚ) := by positivity
  refine ⟨rfl, ?_, ?_⟩
  · simp only [centralityScore]
    have h1 : 0 ≤ ((incomingConnectionCount connections sourceId : ℚ) /
        ((SEED_SOURCES.length : ℚ) - 1)) * 50 := by
      rw [hlen6]; positivity
    nlinarith [havg.1]
  · simp only [centralityScore]
    rw [hlen6]
    have hdiv : (incomingConnectionCount connections sourceId : ℚ) / 5 ≤ 1 :=
      (div_le_one (by norm_num)).mpr hc5
    have hdiv0 : 0 ≤ (incomingConnectionCount connections sourceId : ℚ) / 5 := by positivity
    nlinarith [havg.1, havg.2]

/-- Witness for the amended C4 at the empty connection log: all hypotheses
hold and the centrality of highsnobiety is 0, within [0,100]. -/
theorem centralityScore_formula_and_range_witness :
    centralityScore [] highsnobietyId =
      ((incomingConnectionCount [] highsnobietyId : ℚ) /
          ((SEED_SOURCES.length : ℚ) - 1)) * 50 +
        (if 0 < (incomingStrengths [] highsnobietyId).length
          then (incomingStrengths [] highsnobietyId).sum /
            ((incomingStrengths [] highsnobietyId).length : ℚ)
          else 0) * 0.5 ∧
      0 ≤ centralityScore [] highsnobietyId ∧
      centralityScore [] highsnobietyId ≤ 100 :=
  centralityScore_formula_and_range [] highsnobietyId (by simp) (by decide)

theorem trendScore_sentiment_eq (st : ScoringState) (now : ℚ) (brandName : String)
    (ms : List BrandMention) :
    (calculateBrandTrendScore st now brandName ms).sentiment =
      calculateSentimentScore st now ms := by
  cases ms with
  | nil =>
    show (50 : ℝ) = calculateSentimentScore st now []
    simp [calculateSentimentScore]
  | cons m0 rest => rfl

theorem trendScore_mentions_eq (st : ScoringState) (now : ℚ) (brandName : String)
    (ms : List BrandMention) :
    (calculateBrandTrendScore st now brandName ms).mentions = ms.length := by
  cases ms with
  | nil => rfl
  | cons m0 rest => rfl

theorem calculateSentimentScore_append_top (st : ScoringState) (now : ℚ)
    (ms : List BrandMention) (m : BrandMention)
    (hm : m.sentiment = some 1)
    (hw : ∀ x ∈ ms, 0 ≤ mentionSentimentWeight st now x)
    (hwm : 0 ≤ mentionSentimentWeight st now m)
    (hs : ∀ x ∈ ms, ∀ s : ℚ, x.sentiment = some s → -1 ≤ s ∧ s ≤ 1) :
    calculateSentimentScore st now ms ≤ calculateSentimentScore st now (ms ++ [m]) := by
  obtain ⟨hW, hS⟩ := sentimentSums_bound st now ms hw hs
  have happ : sentimentSums st now (ms ++ [m]) =
      ((sentimentSums st now ms).1 + mentionSentimentWeight st now m,
        (sentimentSums st now ms).2 + mentionSentimentWeight st now m) := by
    rw [sentimentSums_append]
    rw [sentimentStep]
    rw [hm]
    norm_num
  have hlen1 : ¬ (ms ++ [m]).length = 0 := by simp
  rw [abs_le] at hS
  unfold calculateSentimentScore
  rw [if_neg hlen1, happ]
  by_cases hlen : ms.length = 0
  · rw [if_pos hlen]
    have hnil : ms = [] := List.length_eq_zero.mp hlen
    subst hnil
    have hz : sentimentSums st now [] = (0, 0) := rfl
    rw [hz]
    dsimp only
    by_cases hw0 : (0 : ℝ) + mentionSentimentWeight st now m = 0
    · rw [if_pos hw0]
    · rw [if_neg hw0]
      rw [zero_add] at hw0
      have : (0 + mentionSentimentWeight st now m) /
          (0 + mentionSentimentWeight st now m) = 1 := by
        rw [zero_add]
        exact div_self hw0
      rw [this]
      norm_num
  · rw [if_neg hlen]
    by_cases hWz : (sentimentSums st now ms).2 = 0
    · rw [if_pos hWz]
      have hs0 : (sentimentSums st now ms).1 = 0 := by
        have h1 := hS.1
        have h2 := hS.2
        rw [hWz] at h1 h2
        linarith
      rw [hWz, hs0]
      dsimp only
      by_cases hw0 : (0 : ℝ) + mentionSentimentWeight st now m = 0
      · rw [if_pos hw0]
      · rw [if_neg hw0]
        rw [zero_add] at hw0
        have : (0 + mentionSentimentWeight st now m) /
            (0 + mentionSentimentWeight st now m) = 1 := by
          rw [zero_add]
          exact div_self hw0
        rw [this]
        norm_num
    · rw [if_neg hWz]
      have hWpos : 0 < (sentimentSums st now ms).2 := lt_of_le_of_ne hW (Ne.symm hWz)
      have hW'pos : 0 < (sentimentSums st now ms).2 + mentionSentimentWeight st now m := by
        linarith
      dsimp only
      rw [if_neg hW'pos.ne']
      have hkey : (sentimentSums st now ms).1 / (sentimentSums st now ms).2 ≤
          ((sentimentSums st now ms).1 + mentionSentimentWeight st now m) /
            ((sentimentSums st now ms).2 + mentionSentimentWeight st now m) := by
        rw [div_le_div_iff₀ hWpos hW'pos]
        nlinarith [hS.2]
      linarith

/-- A mention of "Acme" from the top-weight seed source with sentiment 1. -/
def topSentimentMention : BrandMention :=
  { brandName := acmeBrand, sourceId := highsnobietyId, url := "", context := "",
    timestamp := 0, sentiment := some 1, productName := none, productCategory := none }

/-- C9: adding one mention with sentiment 1.0 from the highest-weight
source (parameters, centrality and evaluation time fixed, factors and
centrality nonnegative, existing sentiments within [-1,1]) never decreases
the sentiment component of the brand trend score. -/
theorem sentiment_component_monotone (st : ScoringState) (now : ℚ) (brandName : String)
    (ms : List BrandMention) (m : BrandMention)
    (hm : m.sentiment = some 1)
    (hsrc : ∃ src ∈ SEED_SOURCES, src.id = m.sourceId ∧
      ∀ other ∈ SEED_SOURCES, other.weight ≤ src.weight)
    (hswf : 0 ≤ st.parameters.sourceWeightFactor)
    (hcf : 0 ≤ st.parameters.centralityFactor)
    (hcent : ∀ sid, 0 ≤ st.sourceCentrality sid)
    (hs : ∀ x ∈ ms, ∀ s : ℚ, x.sentiment = some s → -1 ≤ s ∧ s ≤ 1) :
    (calculateBrandTrendScore st now brandName ms).sentiment ≤
      (calculateBrandTrendScore st now brandName (ms ++ [m])).sentiment := by
  rw [trendScore_sentiment_eq, trendScore_sentiment_eq]
  refine calculateSentimentScore_append_top st now ms m hm ?_ ?_ hs
  · intro x _
    exact mentionSentimentWeight_nonneg st now x
      (getEffectiveSourceWeight_nonneg st hswf hcf hcent x.sourceId)
  · exact mentionSentimentWeight_nonneg st now m
      (getEffectiveSourceWeight_nonneg st hswf hcf hcent m.sourceId)

/-- Witness for C9 at a concrete input: adding the sentiment-1 mention from
highsnobiety (the top-weight source) to the empty mention set does not
decrease the sentiment component. -/
theorem sentiment_component_monotone_witness :
    (calculateBrandTrendScore defaultState 0 acmeBrand []).sentiment ≤
      (calculateBrandTrendScore defaultState 0 acmeBrand ([] ++ [topSentimentMention])).sentiment :=
  sentiment_component_monotone defaultState 0 acmeBrand [] topSentimentMention rfl
    (by decide)
    (by norm_num [defaultState, defaultParameters])
    (by norm_num [defaultState, defaultParameters])
    (fun _ => le_refl 0)
    (by simp)

/-- A mention whose sourceId matches no registered seed source. -/
def unknownSourceMention : BrandMention :=
  { brandName := acmeBrand, sourceId := unknownBlogId, url := "", context := "",
    timestamp := 0, sentiment := some 1, productName := none, productCategory := none }

/-- C10: a mention whose sourceId matches no registered source is scored
without error: its effective weight is 0, so it adds nothing to the
source-authority sum and nothing to the sentiment weighted average, yet it
still counts toward the mention count (and hence the frequency, context
and confidence inputs, which consume the full mention list). -/
theorem unknown_source_scored_as_zero (st : ScoringState) (now : ℚ) (brandName : String)
    (ms : List BrandMention) (m : BrandMention)
    (hunk : ∀ s ∈ SEED_SOURCES, s.id ≠ m.sourceId) :
    getEffectiveSourceWeight st m.sourceId = 0 ∧
      authoritySum st (ms ++ [m]) = authoritySum st ms ∧
      calculateSentimentScore st now (ms ++ [m]) = calculateSentimentScore st now ms ∧
      (calculateBrandTrendScore st now brandName (ms ++ [m])).mentions = ms.length + 1 := by
  have hfind : SEED_SOURCES.find? (fun s => s.id == m.sourceId) = none := by
    rw [List.find?_eq_none]
    intro s hsm
    simpa using hunk s hsm
  have heff : getEffectiveSourceWeight st m.sourceId = 0 := by
    rw [getEffectiveSourceWeight, hfind]
  have hw0 : mentionSentimentWeight st now m = 0 := by
    rw [mentionSentimentWeight, heff]
    norm_num
  have hsums : sentimentSums st now (ms ++ [m]) = sentimentSums st now ms := by
    rw [sentimentSums_append, sentimentStep]
    cases hm : m.sentiment with
    | none => rfl
    | some s =>
      rw [hw0]
      norm_num
  refine ⟨heff, ?_, ?_, ?_⟩
  · rw [authoritySum, authoritySum, List.map_append, List.sum_append]
    simp [heff]
  · unfold calculateSentimentScore
    rw [hsums]
    by_cases hlen : ms.length = 0
    · have hnil : ms = [] := List.length_eq_zero.mp hlen
      subst hnil
      simp [sentimentSums]
    · rw [if_neg hlen, if_neg (by simp)]
  · rw [trendScore_mentions_eq, List.length_append, List.length_cons, List.length_nil]

/-- Witness for C10: the unknown-source mention joins one known mention;
its weight is 0, the authority sum and sentiment component are unchanged,
and the mention count still grows to 2. -/
theorem unknown_source_scored_as_zero_witness :
    getEffectiveSourceWeight defaultState unknownBlogId = 0 ∧
      authoritySum defaultState ([acmeMention] ++ [unknownSourceMention]) =
        authoritySum defaultState [acmeMention] ∧
      calculateSentimentScore defaultState 0 ([acmeMention] ++ [unknownSourceMention]) =
        calculateSentimentScore defaultState 0 [acmeMention] ∧
      (calculateBrandTrendScore defaultState 0 acmeBrand
          ([acmeMention] ++ [unknownSourceMention])).mentions = [acmeMention].length + 1 :=
  unknown_source_scored_as_zero defaultState 0 acmeBrand [acmeMention] unknownSourceMention
    (by decide)

theorem weighted_mean_bounds (w1 w2 w3 w4 A R F S C : ℝ)
    (hw1 : 0 < w1) (hw2 : 0 < w2) (hw3 : 0 < w3) (hw4 : 0 < w4) (hw41 : w4 ≤ 1)
    (hA0 : 0 ≤ A) (hA1 : A ≤ 100) (hR0 : 0 ≤ R) (hR1 : R ≤ 100)
    (hF0 : 0 ≤ F) (hF1 : F ≤ 100) (hS0 : 0 ≤ S) (hS1 : S ≤ 100)
    (hC0 : 0 ≤ C) (hC1 : C ≤ 100) :
    0 ≤ (A * w1 + R * w2 + F * w3 + S * w4 + C * (1 - w4)) /
        (w1 + w2 + w3 + w4 + (1 - w4)) ∧
      (A * w1 + R * w2 + F * w3 + S * w4 + C * (1 - w4)) /
        (w1 + w2 + w3 + w4 + (1 - w4)) ≤ 100 := by
  have hden : 0 < w1 + w2 + w3 + w4 + (1 - w4) := by linarith
  have h5 : (0 : ℝ) ≤ 1 - w4 := by linarith
  constructor
  · apply div_nonneg _ hden.le
    have p1 := mul_nonneg hA0 hw1.le
    have p2 := mul_nonneg hR0 hw2.le
    have p3 := mul_nonneg hF0 hw3.le
    have p4 := mul_nonneg hS0 hw4.le
    have p5 := mul_nonneg hC0 h5
    linarith
  · rw [div_le_iff₀ hden]
    have e1 : A * w1 ≤ 100 * w1 := mul_le_mul_of_nonneg_right hA1 hw1.le
    have e2 : R * w2 ≤ 100 * w2 := mul_le_mul_of_nonneg_right hR1 hw2.le
    have e3 : F * w3 ≤ 100 * w3 := mul_le_mul_of_nonneg_right hF1 hw3.le
    have e4 : S * w4 ≤ 100 * w4 := mul_le_mul_of_nonneg_right hS1 hw4.le
    have e5 : C * (1 - w4) ≤ 100 * (1 - w4) := mul_le_mul_of_nonneg_right hC1 h5
    linarith

/-- C1 amended: for every mention set satisfying the Mention invariants
(timestamps not in the future, sentiments within [-1,1]), every
nonnegative centrality map, and every ScoringParameters with all eight
fields positive and sentimentFactor at most 1 (so the context weight
1 - sentimentFactor is nonnegative), the totalScore lies within [0,100];
it is the weighted mean of the five component scores with weights
{sourceWeightFactor, recencyFactor, frequencyFactor, sentimentFactor,
1-sentimentFactor} divided by the sum of those same weights. -/
theorem totalScore_in_range (st : ScoringState) (now : ℚ) (brandName : String)
    (mentions : List BrandMention)
    (hts : ∀ x ∈ mentions, x.timestamp ≤ now)
    (hsent : ∀ x ∈ mentions, ∀ s : ℚ, x.sentiment = some s → -1 ≤ s ∧ s ≤ 1)
    (hcent : ∀ sid, 0 ≤ st.sourceCentrality sid)
    (hswf : 0 < st.parameters.sourceWeightFactor)
    (hcf : 0 < st.parameters.centralityFactor)
    (hsf : 0 < st.parameters.sentimentFactor)
    (hrdd : 0 < st.parameters.recencyDecayDays)
    (hrf : 0 < st.parameters.recencyFactor)
    (hff : 0 < st.parameters.frequencyFactor)
    (hpmb : 0 < st.parameters.productMentionBoost)
    (hcdb : 0 < st.parameters.contextDetailBoost)
    (hsf1 : st.parameters.sentimentFactor ≤ 1) :
    0 ≤ (calculateBrandTrendScore st now brandName mentions).totalScore ∧
      (calculateBrandTrendScore st now brandName mentions).totalScore ≤ 100 := by
  cases mentions with
  | nil =>
    constructor
    · exact le_refl 0
    · norm_num [calculateBrandTrendScore]
  | cons m0 rest =>
    have hwts : ∀ x ∈ (m0 :: rest), 0 ≤ mentionSentimentWeight st now x := fun x _ =>
      mentionSentimentWeight_nonneg st now x
        (getEffectiveSourceWeight_nonneg st hswf.le hcf.le hcent x.sourceId)
    obtain ⟨hA0, hA1⟩ := authority_component_bounds st (m0 :: rest) hswf.le hcf.le hcent
    obtain ⟨hF0, hF1⟩ := calculateFrequencyScore_bounds (m0 :: rest)
    obtain ⟨hS0, hS1⟩ := calculateSentimentScore_bounds st now (m0 :: rest) hwts hsent
    obtain ⟨hC0, hC1⟩ := calculateContextScore_bounds st (m0 :: rest) hpmb.le hcdb.le
    have hnm : (sortByTimestampDesc (m0 :: rest)).headD m0 ∈ (m0 :: rest) :=
      sortByTimestampDesc_headD_mem m0 (m0 :: rest) (List.mem_cons_self m0 rest)
    have hR0 := calculateRecencyScore_nonneg st now
      ((sortByTimestampDesc (m0 :: rest)).headD m0).timestamp
    have hR1 := calculateRecencyScore_le_100 st now
      ((sortByTimestampDesc (m0 :: rest)).headD m0).timestamp (hts _ hnm) hrdd
    have key := weighted_mean_bounds
      (st.parameters.sourceWeightFactor : ℝ) (st.parameters.recencyFactor : ℝ)
      (st.parameters.frequencyFactor : ℝ) (st.parameters.sentimentFactor : ℝ)
      ((min (authoritySum st (m0 :: rest) / ((m0 :: rest).length : ℚ)) 100 : ℚ) : ℝ)
      (calculateRecencyScore st now ((sortByTimestampDesc (m0 :: rest)).headD m0).timestamp)
      ((calculateFrequencyScore (m0 :: rest) : ℚ) : ℝ)
      (calculateSentimentScore st now (m0 :: rest))
      ((calculateContextScore st (m0 :: rest) : ℚ) : ℝ)
      (by exact_mod_cast hswf) (by exact_mod_cast hrf) (by exact_mod_cast hff)
      (by exact_mod_cast hsf) (by exact_mod_cast hsf1)
      (by exact_mod_cast hA0) (by exact_mod_cast hA1)
      hR0 hR1
      (by exact_mod_cast hF0) (by exact_mod_cast hF1)
      hS0 hS1
      (by exact_mod_cast hC0) (by exact_mod_cast hC1)
    exact key

/-- Witness for the amended C1: the default parameters are all positive
with sentimentFactor 0.4 at most 1, and scoring a concrete one-mention set
yields a totalScore within [0,100]. -/
theorem totalScore_in_range_witness :
    0 ≤ (calculateBrandTrendScore defaultState 0 acmeBrand [acmeMention]).totalScore ∧
      (calculateBrandTrendScore defaultState 0 acmeBrand [acmeMention]).totalScore ≤ 100 :=
  totalScore_in_range defaultState 0 acmeBrand [acmeMention]
    (by intro x hx; rw [List.mem_singleton.mp hx]; norm_num [acmeMention])
    (by intro x hx s hs; rw [List.mem_singleton.mp hx] at hs; exact absurd hs (by simp [acmeMention]))
    (fun _ => le_refl 0)
    (by norm_num [defaultState, defaultParameters])
    (by norm_num [defaultState, defaultParameters])
    (by norm_num [defaultState, defaultParameters])
    (by norm_num [defaultState, defaultParameters])
    (by norm_num [defaultState, defaultParameters])
    (by norm_num [defaultState, defaultParameters])
    (by norm_num [defaultState, defaultParameters])
    (by norm_num [defaultState, defaultParameters])
    (by norm_num [defaultState, defaultParameters])

/-- A ScoringParameters record whose eight fields are all positive but
whose sentimentFactor exceeds 1, making the context weight
1 - sentimentFactor negative. -/
def skewedParameters : ScoringParameters :=
  { sourceWeightFactor := 1/100
    centralityFactor := 1/100
    sentimentFactor := 2
    recencyDecayDays := 14
    recencyFactor := 1/100
    frequencyFactor := 1/100
    productMentionBoost := 1
    contextDetailBoost := 1 }

/-- The scoring algorithm holding the skewed (but all-positive)
parameters and the zero centrality map. -/
def skewedState : ScoringState :=
  { parameters := skewedParameters, sourceCentrality := zeroCentrality }

/-- C1 counterexample: with all eight ScoringParameters fields positive
(sentimentFactor 2) and one valid mention (timestamp now, sentiment 1),
the totalScore is 151203/1030, above 100: the claim fails for positive
parameters with sentimentFactor above 1, whose context weight
1 - sentimentFactor is negative. -/
theorem totalScore_not_bounded_for_all_positive_parameters :
    (0 < skewedParameters.sourceWeightFactor ∧ 0 < skewedParameters.centralityFactor ∧
      0 < skewedParameters.sentimentFactor ∧ 0 < skewedParameters.recencyDecayDays ∧
      0 < skewedParameters.recencyFactor ∧ 0 < skewedParameters.frequencyFactor ∧
      0 < skewedParameters.productMentionBoost ∧ 0 < skewedParameters.contextDetailBoost) ∧
    (∀ x ∈ [topSentimentMention], x.timestamp ≤ (0 : ℚ)) ∧
    (∀ x ∈ [topSentimentMention], ∀ s : ℚ, x.sentiment = some s → -1 ≤ s ∧ s ≤ 1) ∧
    100 < (calculateBrandTrendScore skewedState 0 acmeBrand [topSentimentMention]).totalScore := by
  refine ⟨by norm_num [skewedParameters], ?_, ?_, ?_⟩
  · intro x hx
    rw [List.mem_singleton.mp hx]
    norm_num [topSentimentMention]
  · intro x hx s hs
    rw [List.mem_singleton.mp hx] at hs
    have h1 : (some (1:ℚ) : Option ℚ) = some s := hs
    have h2 : s = 1 := (Option.some.injEq _ _ ▸ h1).symm
    rw [h2]
    norm_num
  · have hsort : sortByTimestampDesc [topSentimentMention] = [topSentimentMention] := by
      rw [sortByTimestampDesc]; exact List.mergeSort_singleton topSentimentMention
    have hfind : SEED_SOURCES.find? (fun s => s.id == highsnobietyId) =
        some ⟨"highsnobiety", "Highsnobiety", "https://www.highsnobiety.com",
          SourceCategory.editorial, 30⟩ := rfl
    have heff : getEffectiveSourceWeight skewedState highsnobietyId = 3/10 := by
      simp only [getEffectiveSourceWeight, hfind]
      norm_num [skewedState, skewedParameters, zeroCentrality]
    have hr : calculateRecencyScore skewedState 0 0 = 100 := by
      simp only [calculateRecencyScore]
      have h : ((0 - 0 : ℚ) / msPerDay / skewedState.parameters.recencyDecayDays : ℚ) = 0 := by
        norm_num
      rw [h]
      simp [Real.rpow_zero]
    have hwm : mentionSentimentWeight skewedState 0 topSentimentMention = 3/10 := by
      rw [mentionSentimentWeight]
      have : topSentimentMention.sourceId = highsnobietyId := rfl
      rw [this, heff]
      have : topSentimentMention.timestamp = 0 := rfl
      rw [this, hr]
      norm_num
    have hsentsc : calculateSentimentScore skewedState 0 [topSentimentMention] = 100 := by
      rw [calculateSentimentScore]
      rw [if_neg (by norm_num)]
      have hsums : sentimentSums skewedState 0 [topSentimentMention] = (3/10, 3/10) := by
        rw [sentimentSums]
        rw [List.foldl_cons, List.foldl_nil]
        rw [sentimentStep]
        have : topSentimentMention.sentiment = some 1 := rfl
        rw [this]
        rw [hwm]
        norm_num
      rw [hsums]
      rw [if_neg (by norm_num)]
      norm_num
    have hfreq : calculateFrequencyScore [topSentimentMention] = 20 := by
      simp only [calculateFrequencyScore, hsort]
      norm_num
    have hauth : authoritySum skewedState [topSentimentMention] = 3/10 := by
      rw [authoritySum]
      rw [List.map_cons, List.map_nil, List.sum_cons, List.sum_nil]
      have : topSentimentMention.sourceId = highsnobietyId := rfl
      rw [this, heff]
      norm_num
    have hctx : calculateContextScore skewedState [topSentimentMention] = 50 := by
      simp [calculateContextScore, mentionContextScore, jsTruthy, topSentimentMention]
      norm_num
    simp only [calculateBrandTrendScore, hsort, List.headD]
    have hts0 : topSentimentMention.timestamp = 0 := rfl
    rw [hts0, hr, hsentsc, hfreq, hauth, hctx]
    norm_num [skewedState, skewedParameters]

end GemNY
